import Mathlib

/-!
Shallow embedding of the three units in `src/src/components/CrossFadeIcon.tsx`
(the file concatenates three modules: the `CrossFadeIcon` component, the
`FABGroup` speed-dial component, and the `shadow` elevation-style helper),
together with proofs of the specified properties.

Numbers are modelled as rationals (`ℚ`); icon identities are opaque naturals
compared by equality, matching the source's `===` comparison.
-/

namespace CrossFadeRepo

/-! ## ShadowStyleComputer (`shadow`, source lines 465-519) -/

/-- Modelled from the spec: the fixed shadow colour constant `Colors.black`
(the `colors` module is not part of this repository's sources). -/
def SHADOW_COLOR : String := "#000000"

/-- `const SHADOW_OPACITY = 0.35` from the source. -/
def SHADOW_OPACITY : ℚ := 35 / 100

/-- The platform shadow style record produced by `shadow`:
`{ shadowColor, shadowOffset: {width, height}, shadowOpacity, shadowRadius }`. -/
structure ShadowStyle where
  shadowColor : String
  offsetWidth : ℚ
  offsetHeight : ℚ
  shadowOpacity : ℚ
  shadowRadius : ℚ
  deriving DecidableEq, Repr

/-- The `height` local computed by the static branch's `switch` statement
(source lines 495-508).  Note that in the source this value is computed but
never used: the returned style hard-codes `height: 0`. -/
def staticHeight (elevation : ℚ) : ℚ :=
  if elevation = 1 then 1 / 2
  else if elevation = 2 then 3 / 4
  else elevation - 1

/-- The `radius` local computed by the static branch's `switch` statement
(source lines 495-508). -/
def staticRadius (elevation : ℚ) : ℚ :=
  if elevation = 1 then 3 / 4
  else if elevation = 2 then 3 / 2
  else elevation

/-- The static branch of `shadow` (source lines 490-519).  `none` models the
empty style `{}` returned for elevation 0.  The returned record mirrors the
source literally, including `shadowOffset: { width: 0, height: 0 }` — the
`height` local (see `staticHeight`) is not placed in the result. -/
def shadow (elevation : ℚ) : Option ShadowStyle :=
  if elevation = 0 then none
  else
    some
      { shadowColor := SHADOW_COLOR
        offsetWidth := 0
        offsetHeight := 0
        shadowOpacity := SHADOW_OPACITY
        shadowRadius := staticRadius elevation }

/-- Modelled from the spec: piecewise-linear interpolation over a table of
`(input, output)` breakpoints with clamping at the table's ends — the
semantics of the framework's `Animated.interpolate`, which is not part of
this repository's sources.  The breakpoint tables themselves come from the
source (lines 473, 481, 487). -/
def piecewiseLinear : List (ℚ × ℚ) → ℚ → ℚ
  | [], _ => 0
  | [(_, y)], _ => y
  | (x0, y0) :: (x1, y1) :: rest, x =>
    if x ≤ x0 then y0
    else if x ≤ x1 then y0 + (y1 - y0) * (x - x0) / (x1 - x0)
    else piecewiseLinear ((x1, y1) :: rest) x

/-- `const inputRange = [0, 1, 2, 3, 8, 24]` (source line 473). -/
def inputRange : List ℚ := [0, 1, 2, 3, 8, 24]

/-- `outputRange: [0, 0.1, 0.5, 0.75, 2, 7]` for the offset height
(source line 481). -/
def heightOutputRange : List ℚ := [0, 1 / 10, 1 / 2, 3 / 4, 2, 7]

/-- `outputRange: [0, 1, 2.5, 5, 12, 24]` for the shadow radius
(source line 487). -/
def radiusOutputRange : List ℚ := [0, 1, 5 / 2, 5, 12, 24]

/-- The dynamic branch of `shadow` (source lines 472-489), evaluated at the
current numeric value of the elevation signal: offset height and radius are
the interpolations of the input through the two breakpoint tables, opacity is
the constant `SHADOW_OPACITY`, offset width is the constant 0. -/
def dynamicShadow (elevation : ℚ) : ShadowStyle :=
  { shadowColor := SHADOW_COLOR
    offsetWidth := 0
    offsetHeight := piecewiseLinear (inputRange.zip heightOutputRange) elevation
    shadowOpacity := SHADOW_OPACITY
    shadowRadius := piecewiseLinear (inputRange.zip radiusOutputRange) elevation }

/-- The spec's description of the dynamic offset-height: explicit clamped
piecewise-linear formulas through `(0,0), (1,0.1), (2,0.5), (3,0.75), (8,2),
(24,7)`. -/
def spec_dynamicHeight (e : ℚ) : ℚ :=
  if e ≤ 0 then 0
  else if e ≤ 1 then e / 10
  else if e ≤ 2 then 1 / 10 + (2 / 5) * (e - 1)
  else if e ≤ 3 then 1 / 2 + (1 / 4) * (e - 2)
  else if e ≤ 8 then 3 / 4 + (1 / 4) * (e - 3)
  else if e ≤ 24 then 2 + (5 / 16) * (e - 8)
  else 7

/-- The spec's description of the dynamic shadow radius: explicit clamped
piecewise-linear formulas through `(0,0), (1,1), (2,2.5), (3,5), (8,12),
(24,24)`. -/
def spec_dynamicRadius (e : ℚ) : ℚ :=
  if e ≤ 0 then 0
  else if e ≤ 1 then e
  else if e ≤ 2 then 1 + (3 / 2) * (e - 1)
  else if e ≤ 3 then 5 / 2 + (5 / 2) * (e - 2)
  else if e ≤ 8 then 5 + (7 / 5) * (e - 3)
  else if e ≤ 24 then 12 + (3 / 4) * (e - 8)
  else 24

/-! ## CrossFadeIcon (source lines 1-111) -/

/-- The state tracked by `CrossFadeIcon`: the current icon and the optional
previous icon (`fade` is modelled separately as the numeric value of the
animated progress).  Icons are opaque identities compared with `===`. -/
structure CFState where
  currentIcon : ℕ
  previousIcon : Option ℕ
  deriving DecidableEq, Repr

/-- `CrossFadeIcon`'s initial state: `currentIcon = props.source`, no
previous icon (source lines 46-49). -/
def cfInit (source : ℕ) : CFState :=
  { currentIcon := source, previousIcon := none }

/-- `CrossFadeIcon.getDerivedStateFromProps` (source lines 35-44): if the
tracked current icon equals the incoming `source`, the state is unchanged
(`return null`); otherwise the current icon is archived as the previous icon
and replaced by `source`. -/
def cfDerive (source : ℕ) (st : CFState) : CFState :=
  if st.currentIcon = source then st
  else { currentIcon := source, previousIcon := some st.currentIcon }

/-- Apply a sequence of icon props: the initial mount with `first`, then each
element of `rest` through `cfDerive` in order. -/
def runIcons (first : ℕ) (rest : List ℕ) : CFState :=
  rest.foldl (fun st s => cfDerive s st) (cfInit first)

/-- What `CrossFadeIcon.render` (source lines 64-93) produces, as a function
of the state and the current numeric value of the `fade` animated value: the
rotation angle in degrees applied to the icon container, and the list of
icons drawn (only the current icon is rendered). -/
structure CFRendered where
  rotationDeg : ℚ
  icons : List ℕ
  deriving DecidableEq, Repr

/-- `CrossFadeIcon.render` (source lines 64-93): when a previous icon exists
the rotation is `fade.interpolate({inputRange: [0,1], outputRange: ['0deg',
'45deg']})`, otherwise the constant `'0deg'`; the subtree contains a single
`Icon` with `source = state.currentIcon`. -/
def cfRender (st : CFState) (fade : ℚ) : CFRendered :=
  { rotationDeg :=
      match st.previousIcon with
      | some _ => piecewiseLinear [(0, 0), (1, 45)] fade
      | none => 0
    icons := [st.currentIcon] }

/-- A single `Animated.timing` request: the target value and the duration. -/
structure TimingCmd where
  target : ℚ
  duration : ℚ
  deriving DecidableEq, Repr

/-- `CrossFadeIcon.componentDidUpdate` (source lines 51-62): on every update
it starts `Animated.timing(fade, { duration: scale * 200, toValue:
props.isOpen ? 1 : 0 })`. -/
def cfDidUpdate (isOpen : Bool) (scale : ℚ) : TimingCmd :=
  { target := if isOpen then 1 else 0, duration := scale * 200 }

/-! ## FABGroup (source lines 112-464) -/

/-- `FABGroup.getDerivedStateFromProps` (source lines 272-279): the per-item
progress list is rebuilt as `actions.map((_, i) => prevState.animations[i] ||
new Animated.Value(open ? 1 : 0))` — one entry per current action, keeping
the existing entry at each position when there is one and initialising any
new position to 1 when `open` and 0 otherwise.  `nActions` is the length of
the incoming `actions` array; entries are the numeric values of the animated
values. -/
def fabDerive (nActions : ℕ) (opn : Bool) (prev : List ℚ) : List ℚ :=
  (List.range nActions).map (fun i => prev.getD i (if opn then 1 else 0))

/-- The pair of animation requests issued by `FABGroup.componentDidUpdate`
(source lines 286-332) on an `open` transition: the backdrop timing's target
and duration, and the staggered per-item sequence described by the delay
between successive slots, the original action indices in slot order, and the
common per-item target and duration. -/
structure GroupAnim where
  backdropTarget : ℚ
  backdropDuration : ℚ
  staggerDelay : ℚ
  itemOrder : List ℕ
  itemTarget : ℚ
  itemDuration : ℚ
  deriving DecidableEq, Repr

/-- `FABGroup.componentDidUpdate` (source lines 286-332), for `n` actions.
Opening: backdrop to 0.32 over `250 * scale`, and the per-item timings
(each to 1 over `150 * scale`) are `.reverse()`d before being staggered with
delay `50 * scale` — so slot order is the reverse of the action array.
Closing: backdrop to 0 over `200 * scale`, per-item timings to 0 over
`150 * scale`, staggered in forward array order with delay `50 * scale`. -/
def fabDidUpdate (opn : Bool) (scale : ℚ) (n : ℕ) : GroupAnim :=
  if opn then
    { backdropTarget := 32 / 100
      backdropDuration := 250 * scale
      staggerDelay := 50 * scale
      itemOrder := (List.range n).reverse
      itemTarget := 1
      itemDuration := 150 * scale }
  else
    { backdropTarget := 0
      backdropDuration := 200 * scale
      staggerDelay := 50 * scale
      itemOrder := List.range n
      itemTarget := 0
      itemDuration := 150 * scale }

/-- Modelled from the spec: `Animated.stagger(delay, list)` (framework code,
not in this repository's sources) starts the animation in slot `j` with a
start offset of `j * delay`. -/
def slotStart (g : GroupAnim) (j : ℕ) : ℚ :=
  g.staggerDelay * j

/-- Observable requests issued while handling a press on an action item:
either some effect of the item's own callback (tagged by a number), or an
`onStateChange({ open })` request. -/
inductive FabEvent where
  | callbackEffect : ℕ → FabEvent
  | stateChange : Bool → FabEvent
  deriving DecidableEq, Repr

/-- An action item's `onPress` callback, modelled by the events it emits in
order and whether it ends by throwing a synchronous exception (`true`) or
returning normally (`false`). -/
structure FabCallback where
  events : List FabEvent
  throws : Bool
  deriving DecidableEq, Repr

/-- The press handler of an action item's button (source lines 408-411):
`() => { it.onPress(); this.close() }` with `close = () =>
this.props.onStateChange({ open: false })` (line 334).  The callback runs
first; if it returns normally, a single close request is issued afterwards.
A synchronous exception in the callback propagates, so control never reaches
`this.close()`. -/
def fabHandlePress (cb : FabCallback) : List FabEvent :=
  if cb.throws then cb.events
  else cb.events ++ [FabEvent.stateChange false]

/-! ## Theorems -/

/-- C1: the spec says the static shadow for elevation 1 has offset-height
0.5 (and analogously for other elevations), but the code hard-codes
`height: 0` in the returned `shadowOffset`; the `height` computed by the
switch (which does equal the spec's 0.5 at elevation 1) is dead.  This
theorem evaluates the code at the failing input, elevation 1: the returned
style carries offset-height 0, not the `staticHeight` value 1/2 the claim
requires, while radius, opacity, colour and offset-width match the claim. -/
theorem shadow_static_drops_height :
    (shadow 1).map ShadowStyle.offsetHeight = some 0 ∧
    staticHeight 1 = 1 / 2 ∧
    (shadow 1).map ShadowStyle.offsetHeight ≠ some (staticHeight 1) ∧
    shadow 1 =
      some
        { shadowColor := SHADOW_COLOR
          offsetWidth := 0
          offsetHeight := 0
          shadowOpacity := 35 / 100
          shadowRadius := 3 / 4 } := by
  refine ⟨?_, ?_, ?_, ?_⟩ <;>
    norm_num [shadow, staticHeight, staticRadius, SHADOW_OPACITY]

/-- C2: for every non-zero constant elevation, the static shadow returns a
style whose `shadowOffset` is exactly `{width: 0, height: 0}`: the
elevation-dependent height computed internally never reaches the result. -/
theorem shadow_static_offset_zero (e : ℚ) (h : e ≠ 0) :
    (shadow e).map ShadowStyle.offsetHeight = some 0 ∧
    (shadow e).map ShadowStyle.offsetWidth = some 0 := by
  simp [shadow, h]

/-- Witness for C2 at elevation 10. -/
theorem shadow_static_offset_zero_witness :
    (shadow 10).map ShadowStyle.offsetHeight = some 0 ∧
    (shadow 10).map ShadowStyle.offsetWidth = some 0 :=
  shadow_static_offset_zero 10 (by norm_num)

/-- C4: the dynamic shadow's offset-height and radius are the clamped
piecewise-linear interpolations of the input through the breakpoint tables
`{0,1,2,3,8,24} → {0,0.1,0.5,0.75,2,7}` and `→ {0,1,2.5,5,12,24}` (stated
as a refinement against the spec's explicit segment formulas), the opacity
is the constant 0.35, input 8 hits the breakpoint exactly (height 2, radius
12), and input 16 falls strictly between the breakpoint outputs for 8 and
24. -/
theorem shadow_dynamic_interpolation :
    (∀ e : ℚ,
      (dynamicShadow e).offsetHeight = spec_dynamicHeight e ∧
      (dynamicShadow e).shadowRadius = spec_dynamicRadius e ∧
      (dynamicShadow e).shadowOpacity = 35 / 100) ∧
    (dynamicShadow 8).offsetHeight = 2 ∧
    (dynamicShadow 8).shadowRadius = 12 ∧
    (2 < (dynamicShadow 16).offsetHeight ∧ (dynamicShadow 16).offsetHeight < 7) ∧
    (12 < (dynamicShadow 16).shadowRadius ∧ (dynamicShadow 16).shadowRadius < 24) := by
  have h : ∀ e : ℚ,
      (dynamicShadow e).offsetHeight = spec_dynamicHeight e ∧
      (dynamicShadow e).shadowRadius = spec_dynamicRadius e ∧
      (dynamicShadow e).shadowOpacity = 35 / 100 := by
    intro e
    refine ⟨?_, ?_, rfl⟩
    · show piecewiseLinear (inputRange.zip heightOutputRange) e = spec_dynamicHeight e
      simp only [inputRange, heightOutputRange, List.zip_cons_cons, List.zip_nil_right,
        piecewiseLinear, spec_dynamicHeight]
      split_ifs <;> ring
    · show piecewiseLinear (inputRange.zip radiusOutputRange) e = spec_dynamicRadius e
      simp only [inputRange, radiusOutputRange, List.zip_cons_cons, List.zip_nil_right,
        piecewiseLinear, spec_dynamicRadius]
      split_ifs <;> ring
  refine ⟨h, ?_, ?_, ?_, ?_⟩
  · rw [(h 8).1]; norm_num [spec_dynamicHeight]
  · rw [(h 8).2.1]; norm_num [spec_dynamicRadius]
  · rw [(h 16).1]; norm_num [spec_dynamicHeight]
  · rw [(h 16).2.1]; norm_num [spec_dynamicRadius]

/-- `cfDerive` always adopts the incoming source as the current icon. -/
lemma cfDerive_currentIcon (s : ℕ) (st : CFState) :
    (cfDerive s st).currentIcon = s := by
  unfold cfDerive
  split
  · assumption
  · rfl

/-- The current icon after folding a sequence of props is the last supplied
one (or the starting state's icon for the empty sequence). -/
lemma foldl_cfDerive_currentIcon (l : List ℕ) (st : CFState) :
    (l.foldl (fun a b => cfDerive b a) st).currentIcon = l.getLastD st.currentIcon := by
  induction l generalizing st with
  | nil => rfl
  | cons a t ih =>
    simp only [List.foldl_cons, List.getLastD_cons]
    rw [ih, cfDerive_currentIcon]

/-- Once a previous icon has been recorded it is never cleared. -/
lemma foldl_cfDerive_previousIcon_isSome (l : List ℕ) (st : CFState)
    (h : st.previousIcon.isSome) :
    ((l.foldl (fun a b => cfDerive b a) st).previousIcon).isSome := by
  induction l generalizing st with
  | nil => exact h
  | cons a t ih =>
    simp only [List.foldl_cons]
    apply ih
    unfold cfDerive
    split
    · exact h
    · rfl

/-- The previous icon stays absent exactly when every supplied prop equals
the mounted icon. -/
lemma runIcons_previousIcon_none_iff (first : ℕ) (rest : List ℕ) :
    (runIcons first rest).previousIcon = none ↔ ∀ x ∈ rest, x = first := by
  induction rest with
  | nil => simp [runIcons, cfInit]
  | cons a t ih =>
    by_cases ha : a = first
    · subst ha
      have heq : runIcons a (a :: t) = runIcons a t := by
        simp [runIcons, cfDerive, cfInit]
      rw [heq, ih]
      simp
    · constructor
      · intro h
        exfalso
        have hne : ¬first = a := fun hh => ha hh.symm
        have hsome : (runIcons first (a :: t)).previousIcon.isSome := by
          unfold runIcons
          simp only [List.foldl_cons]
          apply foldl_cfDerive_previousIcon_isSome
          simp [cfDerive, cfInit, hne]
        rw [h] at hsome
        simp at hsome
      · intro h
        exact absurd (h a (by simp)) ha

/-- The `[0,1] → [0°,45°]` interpolation is `45 * f` on `[0,1]`. -/
lemma interp45 (f : ℚ) (h0 : 0 ≤ f) (h1 : f ≤ 1) :
    piecewiseLinear [(0, 0), (1, 45)] f = 45 * f := by
  simp only [piecewiseLinear]
  split_ifs with hf
  · have : f = 0 := le_antisymm hf h0
    subst this
    norm_num
  · ring

/-- C3 counterexample: after the prop sequence 0, 1, 1 the last two supplied
icons are equal, yet the rendered rotation at fade value 1 is 45°, not the 0°
the claim requires (`previousIcon` is never cleared once an icon change has
occurred). -/
theorem crossFade_rotation_counterexample :
    (runIcons 0 [1, 1]).currentIcon = 1 ∧
    (cfRender (runIcons 0 [1, 1]) 1).rotationDeg = 45 ∧
    (cfRender (runIcons 0 [1, 1]) 1).rotationDeg ≠ 0 := by
  norm_num [runIcons, cfInit, cfDerive, cfRender, piecewiseLinear]

/-- C3 amended: for every sequence of icon props, the render shows the most
recently supplied icon; as long as every supplied icon equals the mounted
one (no change has ever occurred) the previous icon is absent and the
rotation is 0°; but once a previous icon has been recorded the rotation is
the interpolation `45 * fade` — even on renders where the last two supplied
icons are equal. -/
theorem crossFade_render_history (first : ℕ) (rest : List ℕ) (f : ℚ)
    (h0 : 0 ≤ f) (h1 : f ≤ 1) :
    (runIcons first rest).currentIcon = rest.getLastD first ∧
    ((∀ x ∈ rest, x = first) →
      (runIcons first rest).previousIcon = none ∧
      (cfRender (runIcons first rest) f).rotationDeg = 0) ∧
    ((runIcons first rest).previousIcon.isSome →
      (cfRender (runIcons first rest) f).rotationDeg = 45 * f) := by
  refine ⟨foldl_cfDerive_currentIcon rest (cfInit first), ?_, ?_⟩
  · intro h
    have hn : (runIcons first rest).previousIcon = none :=
      (runIcons_previousIcon_none_iff first rest).mpr h
    refine ⟨hn, ?_⟩
    simp [cfRender, hn]
  · intro h
    obtain ⟨p, hp⟩ := Option.isSome_iff_exists.mp h
    simp only [cfRender, hp]
    exact interp45 f h0 h1

/-- Witness for C3's amended theorem at the constant sequence 0, 0 and fade
value 1/2. -/
theorem crossFade_render_history_witness :
    (runIcons 0 [0]).currentIcon = 0 ∧
    (cfRender (runIcons 0 [0]) (1 / 2)).rotationDeg = 0 ∧
    (cfRender (runIcons 0 [1]) (1 / 2)).rotationDeg = 45 * (1 / 2) := by
  have h := crossFade_render_history 0 [0] (1 / 2) (by norm_num) (by norm_num)
  have h' := crossFade_render_history 0 [1] (1 / 2) (by norm_num) (by norm_num)
  exact ⟨h.1, (h.2.1 (by simp)).2, h'.2.2 (by decide)⟩

/-- C9: after every update (in particular every update where state changed),
`CrossFadeIcon` starts a single timed animation of the fade value with
target 1 when `isOpen` and 0 otherwise, and duration `200 * scale`. -/
theorem crossFade_update_animation (scale : ℚ) :
    (∀ o : Bool, (cfDidUpdate o scale).duration = 200 * scale) ∧
    (cfDidUpdate true scale).target = 1 ∧
    (cfDidUpdate false scale).target = 0 := by
  refine ⟨fun o => ?_, rfl, rfl⟩
  simp only [cfDidUpdate]
  ring

/-- C10: in every render, when a previous icon exists the rotation is the
linear interpolation of the fade value mapping 0 to 0° and 1 to 45°; when no
previous icon exists the rotation is the constant 0°; and only the current
icon is rendered. -/
theorem crossFade_render_rotation (st : CFState) (f : ℚ)
    (h0 : 0 ≤ f) (h1 : f ≤ 1) :
    (st.previousIcon.isSome → (cfRender st f).rotationDeg = 45 * f) ∧
    (st.previousIcon = none → (cfRender st f).rotationDeg = 0) ∧
    (cfRender st f).icons = [st.currentIcon] := by
  refine ⟨?_, ?_, rfl⟩
  · intro h
    obtain ⟨p, hp⟩ := Option.isSome_iff_exists.mp h
    simp only [cfRender, hp]
    exact interp45 f h0 h1
  · intro h
    simp [cfRender, h]

/-- Witness for C10 with a previous icon present at fade value 1/2. -/
theorem crossFade_render_rotation_witness :
    (cfRender ⟨1, some 0⟩ (1 / 2)).rotationDeg = 45 * (1 / 2) ∧
    (cfRender ⟨1, some 0⟩ (1 / 2)).icons = [1] ∧
    (cfRender ⟨1, none⟩ (1 / 2)).rotationDeg = 0 := by
  have h := crossFade_render_rotation ⟨1, some 0⟩ (1 / 2) (by norm_num) (by norm_num)
  have h' := crossFade_render_rotation ⟨1, none⟩ (1 / 2) (by norm_num) (by norm_num)
  exact ⟨h.1 rfl, h.2.2, h'.2.1 rfl⟩

/-- Entry `j` of the reversed `List.range n` is `n - 1 - j`. -/
lemma range_reverse_getD (n j : ℕ) (hj : j < n) :
    ((List.range n).reverse).getD j 0 = n - 1 - j := by
  rw [List.getD_eq_getElem _ _ (by simpa using hj)]
  rw [List.getElem_reverse]
  simp

/-- C5: after every `FABGroup` render the per-item progress list has one
entry per current action; pre-existing positions keep their prior value, and
every newly appended position is initialised to 1 when `open` is true and 0
when it is false. -/
theorem fabGroup_derived_state (n : ℕ) (opn : Bool) (prev : List ℚ) :
    (fabDerive n opn prev).length = n ∧
    (∀ i, i < n → i < prev.length →
      (fabDerive n opn prev).getD i 0 = prev.getD i 0) ∧
    (∀ i, i < n → prev.length ≤ i →
      (fabDerive n opn prev).getD i 0 = if opn then 1 else 0) := by
  refine ⟨by simp [fabDerive], ?_, ?_⟩
  · intro i hi hip
    rw [List.getD_eq_getElem _ _ (by simpa [fabDerive] using hi)]
    simp only [fabDerive, List.getElem_map, List.getElem_range]
    rw [List.getD_eq_getElem _ _ hip, List.getD_eq_getElem _ _ hip]
  · intro i hi hip
    rw [List.getD_eq_getElem _ _ (by simpa [fabDerive] using hi)]
    simp only [fabDerive, List.getElem_map, List.getElem_range]
    exact List.getD_eq_default _ _ hip

/-- Witness for C5: with three actions, an open group and one pre-existing
progress entry 1/2, the derived list has length 3, keeps the 1/2 at position
0 and initialises position 2 to 1. -/
theorem fabGroup_derived_state_witness :
    (fabDerive 3 true [1 / 2]).length = 3 ∧
    (fabDerive 3 true [1 / 2]).getD 0 0 = (1 / 2 : ℚ) ∧
    (fabDerive 3 true [1 / 2]).getD 2 0 = 1 := by
  have h := fabGroup_derived_state 3 true [1 / 2]
  refine ⟨h.1, ?_, ?_⟩
  · simpa using h.2.1 0 (by norm_num) (by simp)
  · simpa using h.2.2 2 (by norm_num) (by simp)

/-- C6: on an `open` transition the stagger slot order when opening is the
reverse of the action array — slot `j` holds original index `n - 1 - j`, so
the last-declared action occupies slot 0 and gets the smallest start offset
— while when closing it is the forward order — slot `j` holds index `j`, so
the first-declared action gets the smallest start offset. -/
theorem fabGroup_stagger_order (n : ℕ) (s : ℚ) :
    (fabDidUpdate true s n).itemOrder = ((fabDidUpdate false s n).itemOrder).reverse ∧
    (∀ j, j < n → ((fabDidUpdate true s n).itemOrder).getD j 0 = n - 1 - j) ∧
    (∀ j, j < n → ((fabDidUpdate false s n).itemOrder).getD j 0 = j) ∧
    (0 < n →
      ((fabDidUpdate true s n).itemOrder).getD 0 0 = n - 1 ∧
      ((fabDidUpdate false s n).itemOrder).getD 0 0 = 0) ∧
    (0 ≤ s → ∀ (o : Bool) (j : ℕ),
      slotStart (fabDidUpdate o s n) 0 ≤ slotStart (fabDidUpdate o s n) j) := by
  refine ⟨rfl, ?_, ?_, ?_, ?_⟩
  · intro j hj
    exact range_reverse_getD n j hj
  · intro j hj
    show (List.range n).getD j 0 = j
    rw [List.getD_eq_getElem _ _ (by simpa using hj)]
    simp
  · intro hn
    refine ⟨by simpa using range_reverse_getD n 0 hn, ?_⟩
    show (List.range n).getD 0 0 = 0
    rw [List.getD_eq_getElem _ _ (by simpa using hn)]
    simp
  · intro hs o j
    have hd : (fabDidUpdate o s n).staggerDelay = 50 * s := by cases o <;> rfl
    simp only [slotStart, hd, Nat.cast_zero, mul_zero]
    positivity

/-- Witness for C6 with two actions and scale 1: opening slot 0 holds the
last action (index 1), closing slot 0 holds the first (index 0), and opening
slot 1 holds index 0. -/
theorem fabGroup_stagger_order_witness :
    ((fabDidUpdate true 1 2).itemOrder).getD 0 0 = 1 ∧
    ((fabDidUpdate false 1 2).itemOrder).getD 0 0 = 0 ∧
    ((fabDidUpdate true 1 2).itemOrder).getD 1 0 = 0 ∧
    slotStart (fabDidUpdate true 1 2) 0 ≤ slotStart (fabDidUpdate true 1 2) 1 := by
  have h := fabGroup_stagger_order 2 1
  exact ⟨(h.2.2.2.1 (by norm_num)).1, (h.2.2.2.1 (by norm_num)).2,
    h.2.1 1 (by norm_num), h.2.2.2.2 (by norm_num) true 1⟩

/-- C7: on an open transition the backdrop animates to 0.32 over
`250 * scale` when opening and to 0 over `200 * scale` when closing; each
per-item progress runs a `150 * scale` transition (to 1 when opening, 0 when
closing) and successive stagger slots start `50 * scale` apart. -/
theorem fabGroup_animation_timings (s : ℚ) (n : ℕ) :
    (fabDidUpdate true s n).backdropTarget = 32 / 100 ∧
    (fabDidUpdate true s n).backdropDuration = 250 * s ∧
    (fabDidUpdate false s n).backdropTarget = 0 ∧
    (fabDidUpdate false s n).backdropDuration = 200 * s ∧
    (∀ o : Bool,
      (fabDidUpdate o s n).itemDuration = 150 * s ∧
      (fabDidUpdate o s n).staggerDelay = 50 * s ∧
      ∀ j : ℕ,
        slotStart (fabDidUpdate o s n) (j + 1) - slotStart (fabDidUpdate o s n) j
          = 50 * s) ∧
    (fabDidUpdate true s n).itemTarget = 1 ∧
    (fabDidUpdate false s n).itemTarget = 0 := by
  refine ⟨rfl, rfl, rfl, rfl, fun o => ⟨?_, ?_, fun j => ?_⟩, rfl, rfl⟩
  · cases o <;> rfl
  · cases o <;> rfl
  · have hd : (fabDidUpdate o s n).staggerDelay = 50 * s := by cases o <;> rfl
    simp only [slotStart, hd]
    push_cast
    ring

/-- C8 counterexample: a callback that throws a synchronous exception before
emitting any event yields a press-handler trace with no close request at all
— `it.onPress(); this.close()` never reaches `this.close()` when `onPress`
throws, so the close request is not issued "regardless of whether the
callback fails". -/
theorem fabGroup_press_counterexample :
    fabHandlePress ⟨[], true⟩ = [] ∧
    (fabHandlePress ⟨[], true⟩).count (FabEvent.stateChange false) = 0 := by
  exact ⟨rfl, rfl⟩

/-- C8 amended: whenever the callback returns normally, the handler runs the
callback's events first and then issues exactly one additional close request
(`onStateChange` with `open = false`), regardless of what the callback does
— including any state changes it requests itself; a synchronously throwing
callback, however, produces only its own partial trace and no close
request. -/
theorem fabGroup_press_close (evs : List FabEvent) :
    fabHandlePress ⟨evs, false⟩ = evs ++ [FabEvent.stateChange false] ∧
    (fabHandlePress ⟨evs, false⟩).count (FabEvent.stateChange false) =
      evs.count (FabEvent.stateChange false) + 1 ∧
    fabHandlePress ⟨evs, true⟩ = evs := by
  refine ⟨rfl, ?_, rfl⟩
  simp [fabHandlePress, List.count_append]

end CrossFadeRepo
